import Mathlib

/-
Verification development for the example-extraction core of the
advent-of-code-data repository (src/aocd/examples.py and
src/aocd/example_parser.py).

Shallow embedding notes.
* The bs4/BeautifulSoup HTML parse (`_get_soup`, external to the repo) is
  abstracted: a `Soup` carries the text of the <title> tag (none when the
  document has no title tag, in which case `soup.title.text` raises
  AttributeError in Python) and the ordered list of <article> tags.  An
  `Article` carries the data the whitelisted views extract from it: the texts
  of its <code>, <pre> and <em> tags and its <li> items (each with the texts
  of the <code> tags nested inside it).  The diagnostic-only string fields of
  the Python `Page` (raw_html, a_raw, b_raw, soup) are serializations of
  these external objects and carry no behavior; they are omitted.
* Python `eval(pos, scope)` evaluates an arbitrary expression string.  It is
  modelled by an abstract evaluator parameter: an `Evaluator σ` takes the
  expression string and the scope (of type σ) and either raises (modelled as
  `Except.error ()`; `extract_examples` catches every exception) or returns a
  value, which is `none` (Python None) or a string or a sequence of strings -
  the value domain the extraction pipeline is written for.
* The title regex `^Day (\d{1,2}) - Advent of Code (\d{4})$` is implemented
  directly over the character list, including re's detail that `$` also
  matches just before a single trailing newline.
* The locator table (examples.json, loaded by `_locators`) is a parameter:
  a `LocatorTable` holds the `default_locators` object (all four keys
  present, each an expression string or null, as in the bundled resource)
  and the per-puzzle `"YYYY/DD"` entries, where an individual `Locator`
  field can also be omitted entirely (inheriting the default's expression
  via `loc.get(k, default[k])`).
-/

structure LiItem where
  text : String
  codes : List String
deriving DecidableEq

structure Article where
  codes : List String
  pres : List String
  ems : List String
  lis : List LiItem
deriving DecidableEq

structure Soup where
  title : Option String
  articles : List Article
deriving DecidableEq

inductive ParseErrorKind
  | titleMismatch
  | noSections
  | tooManySections
deriving DecidableEq

inductive PyError
  | exampleParserError (kind : ParseErrorKind)
  | attributeError (name : String)
deriving DecidableEq

/-- Model of the regex character class `\d`: an ASCII decimal digit. -/
def isDigitChar (c : Char) : Bool :=
  decide (48 ≤ c.toNat ∧ c.toNat ≤ 57)

/-- Strip a literal pattern from the front of a character list, or fail. -/
def stripLeading : List Char → List Char → Option (List Char)
  | [], cs => some cs
  | _ :: _, [] => none
  | p :: ps, c :: cs => if c = p then stripLeading ps cs else none

/-- Python `int()` on a nonempty string of decimal digits. -/
def digitsToNat (ds : List Char) : Nat :=
  ds.foldl (fun acc c => 10 * acc + (c.toNat - 48)) 0

/-- Model of `re.match(r"^Day (\d{1,2}) - Advent of Code (\d{4})$", t)`
followed by `map(int, match.groups())`: returns `(day, year)` on a match.
`$` also matches just before a single trailing newline, as in Python `re`. -/
def parseTitle (t : String) : Option (Nat × Nat) :=
  match stripLeading "Day ".toList t.toList with
  | none => none
  | some r1 =>
    if (r1.takeWhile isDigitChar).length = 0 ∨ 2 < (r1.takeWhile isDigitChar).length then
      none
    else
      match stripLeading " - Advent of Code ".toList (r1.dropWhile isDigitChar) with
      | none => none
      | some r3 =>
        if (r3.takeWhile isDigitChar).length = 4 ∧
            (r3.dropWhile isDigitChar = [] ∨ r3.dropWhile isDigitChar = ['\n']) then
          some (digitsToNat (r1.takeWhile isDigitChar), digitsToNat (r3.takeWhile isDigitChar))
        else none

structure Page where
  year : Nat
  day : Nat
  article_a : Article
  article_b : Option Article
deriving DecidableEq

/-- `Page.from_raw` of both source files (their bodies are identical up to
local names): extract year/day from the title, then partition on the number
of `<article>` sections. -/
def Page.from_raw (soup : Soup) : Except PyError Page :=
  match soup.title with
  | none => Except.error (PyError.attributeError "text")
  | some title_text =>
    match parseTitle title_text with
    | none => Except.error (PyError.exampleParserError ParseErrorKind.titleMismatch)
    | some (day, year) =>
      match soup.articles with
      | [] => Except.error (PyError.exampleParserError ParseErrorKind.noSections)
      | [a] => Except.ok { year := year, day := day, article_a := a, article_b := none }
      | [a, b] => Except.ok { year := year, day := day, article_a := a, article_b := some b }
      | _ => Except.error (PyError.exampleParserError ParseErrorKind.tooManySections)

inductive PagePart
  | a
  | b
deriving DecidableEq

def PagePart.name : PagePart → String
  | PagePart.a => "a"
  | PagePart.b => "b"

/-- The four whitelisted view kinds of `Page.__getattr__`. -/
inductive Tag
  | code
  | pre
  | em
  | li
deriving DecidableEq

def Tag.name : Tag → String
  | Tag.code => "code"
  | Tag.pre => "pre"
  | Tag.em => "em"
  | Tag.li => "li"

/-- The order the extraction scope is populated in (`for tag in "code", "pre", "em", "li"`). -/
def Tag.all : List Tag := [Tag.code, Tag.pre, Tag.em, Tag.li]

inductive ViewVal
  | strs (xs : List String)
  | lis (xs : List LiItem)
deriving DecidableEq

/-- The view `Page.__getattr__` computes from one article for one tag kind:
`[t.text for t in article.find_all(tag)]`, or the drilled-down list items. -/
def Article.view (art : Article) : Tag → ViewVal
  | Tag.code => ViewVal.strs art.codes
  | Tag.pre => ViewVal.strs art.pres
  | Tag.em => ViewVal.strs art.ems
  | Tag.li => ViewVal.lis art.lis

/-- `Page.__getattr__` (examples.py) restricted to the whitelisted
`{a,b} x {code,pre,em,li}` accessor names: raises AttributeError for a
`b_` accessor while part b is locked, otherwise computes the view.  The
memoization (`setattr`) is value-transparent and not modelled. -/
def Page.getattr (page : Page) (part : PagePart) (tag : Tag) : Except PyError ViewVal :=
  match part, page.article_b with
  | PagePart.b, none => Except.error (PyError.attributeError ("b_" ++ tag.name))
  | PagePart.b, some article => Except.ok (article.view tag)
  | PagePart.a, _ => Except.ok (page.article_a.view tag)

/-- `Page.ca` (example_parser.py). -/
def Page.ca (page : Page) : List String :=
  page.article_a.codes

/-- `Page.cb` (example_parser.py): raises AttributeError when part b is locked. -/
def Page.cb (page : Page) : Except PyError (List String) :=
  match page.article_b with
  | none => Except.error (PyError.attributeError "cb")
  | some article => Except.ok article.codes

/-- The evaluation scope of examples.py's `extract_examples`: the page plus
one named binding per unlocked part and view kind. -/
structure Scope where
  page : Page
  views : List (String × ViewVal)
deriving DecidableEq

/-- Scope construction of examples.py's `extract_examples`:
`parts = "a" if part_b_locked else "ab"`, then one binding per part and tag.
The error branch of `getattr` is unreachable here because `b` is only
accessed when part b is unlocked. -/
def buildScope (page : Page) : Scope :=
  let parts := if page.article_b.isNone then [PagePart.a] else [PagePart.a, PagePart.b]
  { page := page
    views := parts.flatMap fun part => Tag.all.filterMap fun tag =>
      match page.getattr part tag with
      | Except.ok v => some (part.name ++ "_" ++ tag.name, v)
      | Except.error _ => none }

structure Example where
  input_data : String
  answer_a : Option String := none
  answer_b : Option String := none
  extra : Option String := none
deriving DecidableEq

/-- A value a locator expression evaluates to (when it is not None and does
not raise): a string or a sequence of strings. -/
inductive Val
  | s (x : String)
  | l (xs : List String)
deriving DecidableEq

/-- Abstract model of Python `eval` over a scope of type `σ`: `Except.error`
is an exception escaping `eval`, `Except.ok none` is an evaluation to None. -/
def Evaluator (σ : Type) : Type :=
  String → σ → Except Unit (Option Val)

/-- The guarded evaluation `try: val = eval(pos, scope) except Exception: val = None`.
`pos = none` models `eval(None, scope)`, which raises and is caught. -/
def tryEval {σ : Type} (ev : Evaluator σ) (scope : σ) (pos : Option String) : Option Val :=
  match pos with
  | none => none
  | some e =>
    match ev e scope with
    | Except.error _ => none
    | Except.ok v => v

/-- Python `s.rstrip("\r\n")`: drop trailing carriage returns and newlines. -/
def rstripCRLF (s : String) : String :=
  String.mk ((s.data.reverse.dropWhile fun c => c == '\r' || c == '\n').reverse)

/-- The fixed field-evaluation order `"input_data", "answer_a", "answer_b", "extra"`. -/
inductive FieldKey
  | input_data
  | answer_a
  | answer_b
  | extra
deriving DecidableEq

def fieldKeys : List FieldKey :=
  [FieldKey.input_data, FieldKey.answer_a, FieldKey.answer_b, FieldKey.extra]

/-- One field of a per-puzzle locator JSON object: the key can be omitted
(inheriting the default's expression), present with value null, or an
expression string. -/
inductive FieldSpec
  | omitted
  | null
  | expr (e : String)
deriving DecidableEq

structure Locator where
  input_data : FieldSpec := FieldSpec.omitted
  answer_a : FieldSpec := FieldSpec.omitted
  answer_b : FieldSpec := FieldSpec.omitted
  extra : FieldSpec := FieldSpec.omitted
deriving DecidableEq

def Locator.field (loc : Locator) : FieldKey → FieldSpec
  | FieldKey.input_data => loc.input_data
  | FieldKey.answer_a => loc.answer_a
  | FieldKey.answer_b => loc.answer_b
  | FieldKey.extra => loc.extra

/-- The `default_locators` object of the bundled examples.json: all four keys
present (`default[k]` never raises KeyError), each an expression or null. -/
structure DefaultLocators where
  input_data : Option String := none
  answer_a : Option String := none
  answer_b : Option String := none
  extra : Option String := none
deriving DecidableEq

def DefaultLocators.field (dflt : DefaultLocators) : FieldKey → Option String
  | FieldKey.input_data => dflt.input_data
  | FieldKey.answer_a => dflt.answer_a
  | FieldKey.answer_b => dflt.answer_b
  | FieldKey.extra => dflt.extra

/-- `pos = loc.get(k, default[k])`. -/
def getPos (loc : Locator) (dflt : DefaultLocators) (k : FieldKey) : Option String :=
  match loc.field k with
  | FieldSpec.omitted => dflt.field k
  | FieldSpec.null => none
  | FieldSpec.expr e => some e

/-- The default locator object viewed as a locator entry (the `[default]`
fallback): every key of the dict is present, with null where the value is null. -/
def DefaultLocators.asLoc (dflt : DefaultLocators) : Locator :=
  { input_data := match dflt.input_data with
                  | none => FieldSpec.null
                  | some e => FieldSpec.expr e
    answer_a := match dflt.answer_a with
                | none => FieldSpec.null
                | some e => FieldSpec.expr e
    answer_b := match dflt.answer_b with
                | none => FieldSpec.null
                | some e => FieldSpec.expr e
    extra := match dflt.extra with
             | none => FieldSpec.null
             | some e => FieldSpec.expr e }

/-- The data loaded by `_locators()` from examples.json. -/
structure LocatorTable where
  default_locators : DefaultLocators
  per_puzzle : List (String × List Locator)
deriving DecidableEq

/-- `locators.get(key, [default])`. -/
def locsFor (locators : LocatorTable) (key : String) : List Locator :=
  match locators.per_puzzle.lookup key with
  | some ls => ls
  | none => [locators.default_locators.asLoc]

/-- The per-puzzle key `f"{page.year}/{page.day:02d}"`. -/
def puzzleKey (year day : Nat) : String :=
  toString year ++ "/" ++ (if day < 10 then "0" ++ toString day else toString day)

/-- `Example(*vals)` guarded by `if vals[0] is not None`: an Example is built
only when the input_data value is non-absent; missing trailing positions
(after the `extra` short-circuit) take the NamedTuple defaults. -/
def exampleFromVals (vals : List (Option String)) : Option Example :=
  match vals.getD 0 none with
  | none => none
  | some input =>
    some { input_data := input
           answer_a := vals.getD 1 none
           answer_b := vals.getD 2 none
           extra := vals.getD 3 none }

namespace Examples

/-- Post-processing of one evaluated value in examples.py:
`if isinstance(val, (tuple, list)): val = "\n".join(val)` then
`if val is not None: val = val.rstrip("\r\n")`. -/
def processVal : Option Val → Option String
  | none => none
  | some (Val.l xs) => some (rstripCRLF (String.intercalate "\n" xs))
  | some (Val.s x) => some (rstripCRLF x)

/-- The full value pipeline for one field in examples.py's `extract_examples`. -/
def fieldValue (ev : Evaluator Scope) (scope : Scope) (pos : Option String) : Option String :=
  processVal (tryEval ev scope pos)

/-- The inner field loop of examples.py's `extract_examples`: for each key in
order, break when `extra` has no expression, force None for `answer_b` when
part b is locked or the day is 25, otherwise evaluate and post-process. -/
def evalFields (ev : Evaluator Scope) (scope : Scope) (day : Nat) (part_b_locked : Bool)
    (dflt : DefaultLocators) (loc : Locator) : List FieldKey → List (Option String)
  | [] => []
  | k :: ks =>
    let pos := getPos loc dflt k
    if k = FieldKey.extra ∧ pos = none then []
    else if k = FieldKey.answer_b ∧ (part_b_locked = true ∨ day = 25) then
      none :: evalFields ev scope day part_b_locked dflt loc ks
    else
      fieldValue ev scope pos :: evalFields ev scope day part_b_locked dflt loc ks

/-- Processing of one locator entry: evaluate the fields, then build the
Example if input_data came out non-absent. -/
def exampleFromLoc (ev : Evaluator Scope) (scope : Scope) (day : Nat) (part_b_locked : Bool)
    (dflt : DefaultLocators) (loc : Locator) : Option Example :=
  exampleFromVals (evalFields ev scope day part_b_locked dflt loc fieldKeys)

/-- Locator selection of examples.py: `[default]` when `use_default_locators`
is set, otherwise the per-puzzle entries with `[default]` as fallback. -/
def locsUsed (locators : LocatorTable) (use_default_locators : Bool) (page : Page) : List Locator :=
  if use_default_locators then [locators.default_locators.asLoc]
  else locsFor locators (puzzleKey page.year page.day)

/-- examples.py `extract_examples`, with the html parse result, the locator
table and the expression evaluator as explicit inputs. -/
def extract_examples (ev : Evaluator Scope) (soup : Soup) (locators : LocatorTable)
    (use_default_locators : Bool) : Except PyError (List Example) :=
  match Page.from_raw soup with
  | Except.error e => Except.error e
  | Except.ok page =>
    Except.ok ((locsUsed locators use_default_locators page).filterMap
      (exampleFromLoc ev (buildScope page) page.day page.article_b.isNone
        locators.default_locators))

end Examples

namespace ExampleParser

/-- Post-processing of one evaluated value in example_parser.py: there is no
join step, so `val.rstrip("\r\n")` raises an (uncaught) AttributeError when
the expression evaluated to a sequence. -/
def processVal : Option Val → Except PyError (Option String)
  | none => Except.ok none
  | some (Val.s x) => Except.ok (some (rstripCRLF x))
  | some (Val.l _) => Except.error (PyError.attributeError "rstrip")

/-- The value pipeline for one field in example_parser.py's `extract_examples`.
The scope there is `{"soup": page.soup}`. -/
def fieldValue (ev : Evaluator Soup) (soup : Soup) (pos : Option String) :
    Except PyError (Option String) :=
  processVal (tryEval ev soup pos)

/-- The inner field loop of example_parser.py's `extract_examples`. -/
def evalFields (ev : Evaluator Soup) (soup : Soup) (day : Nat) (part_b_locked : Bool)
    (dflt : DefaultLocators) (loc : Locator) :
    List FieldKey → Except PyError (List (Option String))
  | [] => Except.ok []
  | k :: ks =>
    let pos := getPos loc dflt k
    if k = FieldKey.extra ∧ pos = none then Except.ok []
    else if k = FieldKey.answer_b ∧ (part_b_locked = true ∨ day = 25) then
      match evalFields ev soup day part_b_locked dflt loc ks with
      | Except.error e => Except.error e
      | Except.ok rest => Except.ok (none :: rest)
    else
      match fieldValue ev soup pos with
      | Except.error e => Except.error e
      | Except.ok v =>
        match evalFields ev soup day part_b_locked dflt loc ks with
        | Except.error e => Except.error e
        | Except.ok rest => Except.ok (v :: rest)

/-- The outer entry loop of example_parser.py's `extract_examples`. -/
def extractLoop (ev : Evaluator Soup) (soup : Soup) (day : Nat) (part_b_locked : Bool)
    (dflt : DefaultLocators) : List Locator → Except PyError (List Example)
  | [] => Except.ok []
  | loc :: ls =>
    match evalFields ev soup day part_b_locked dflt loc fieldKeys with
    | Except.error e => Except.error e
    | Except.ok vals =>
      match extractLoop ev soup day part_b_locked dflt ls with
      | Except.error e => Except.error e
      | Except.ok rest =>
        match exampleFromVals vals with
        | none => Except.ok rest
        | some ex => Except.ok (ex :: rest)

/-- example_parser.py `extract_examples` (no `use_default_locators` option). -/
def extract_examples (ev : Evaluator Soup) (soup : Soup) (locators : LocatorTable) :
    Except PyError (List Example) :=
  match Page.from_raw soup with
  | Except.error e => Except.error e
  | Except.ok page =>
    extractLoop ev soup page.day page.article_b.isNone locators.default_locators
      (locsFor locators (puzzleKey page.year page.day))

end ExampleParser

/-- The four per-pair match flags `i2, i3, i4, i5` of the scoring harnesses. -/
structure Verdict where
  inputMatch : Bool
  answerAMatch : Bool
  answerBMatch : Bool
  extraMatch : Bool
deriving DecidableEq

/-- The per-pair verdict computation shared by both harness main loops:
`i4 = scraped.answer_b is None` when part b is locked, standard equality
otherwise. -/
def scorePair (part_b_locked : Bool) (scraped correct : Example) : Verdict :=
  { inputMatch := scraped.input_data == correct.input_data
    answerAMatch := scraped.answer_a == correct.answer_a
    answerBMatch := if part_b_locked then scraped.answer_b.isNone
                    else scraped.answer_b == correct.answer_b
    extraMatch := scraped.extra == correct.extra }

/-- The fill value `missing = Example("")` used by `zip_longest`. -/
def missingExample : Example :=
  { input_data := "" }

/-- `itertools.zip_longest(xs, ys, fillvalue=fill)` for two lists. -/
def zipLongest {α : Type} (fill : α) : List α → List α → List (α × α)
  | [], [] => []
  | x :: xs, [] => (x, fill) :: zipLongest fill xs []
  | [], y :: ys => (fill, y) :: zipLongest fill [] ys
  | x :: xs, y :: ys => (x, y) :: zipLongest fill xs ys

/-- The length-mismatch diagnostic message
`f"{year}/{day:02d} scraped {len(scrapeds)} but expected {len(corrects)}"`. -/
def lengthMismatchMsg (year day ns nc : Nat) : String :=
  puzzleKey year day ++ " scraped " ++ toString ns ++ " but expected " ++ toString nc

namespace Examples

/-- The per-day alignment and scoring core of examples.py's `main`: a
diagnostic is logged whenever the lengths differ, and the pairs are aligned
with `zip_longest` padding by the empty sentinel Example. -/
def scoreDay (year day : Nat) (part_b_locked : Bool) (scrapeds corrects : List Example) :
    List String × List Verdict :=
  (if scrapeds.length ≠ corrects.length then
     [lengthMismatchMsg year day scrapeds.length corrects.length]
   else [],
   (zipLongest missingExample scrapeds corrects).map fun sc =>
     scorePair part_b_locked sc.1 sc.2)

end Examples

namespace ExampleParser

/-- The per-day alignment and scoring core of example_parser.py's main block:
the warning is logged only when more examples were scraped than expected
(`len(scrapeds) > len(corrects)`); the padding is the same `zip_longest`. -/
def scoreDay (year day : Nat) (part_b_locked : Bool) (scrapeds corrects : List Example) :
    List String × List Verdict :=
  (if corrects.length < scrapeds.length then
     [lengthMismatchMsg year day scrapeds.length corrects.length]
   else [],
   (zipLongest missingExample scrapeds corrects).map fun sc =>
     scorePair part_b_locked sc.1 sc.2)

end ExampleParser

/- Concrete instances used by witnesses and counterexamples. -/

def artA : Article :=
  { codes := ["x", "y"], pres := ["1\n2\n3"], ems := [], lis := [] }

def artB : Article :=
  { codes := ["z"], pres := [], ems := [], lis := [] }

def soup25 : Soup :=
  { title := some "Day 25 - Advent of Code 2022", articles := [artA, artB] }

def soup1 : Soup :=
  { title := some "Day 5 - Advent of Code 2022", articles := [artA] }

def soup99 : Soup :=
  { title := some "Day 99 - Advent of Code 0001", articles := [artA] }

def soupNoTitle : Soup :=
  { title := none, articles := [artA] }

def page25 : Page :=
  { year := 2022, day := 25, article_a := artA, article_b := some artB }

def page1 : Page :=
  { year := 2022, day := 5, article_a := artA, article_b := none }

def page99 : Page :=
  { year := 1, day := 99, article_a := artA, article_b := none }

def dflt0 : DefaultLocators :=
  { input_data := some "a_pre[0]", answer_a := some "a_code[-1]"
    answer_b := some "b_code[-1]", extra := none }

def tbl0 : LocatorTable :=
  { default_locators := dflt0, per_puzzle := [] }

def evConst : Evaluator Scope :=
  fun _ _ => Except.ok (some (Val.s "B"))

def evConstP : Evaluator Soup :=
  fun _ _ => Except.ok (some (Val.s "B"))

def evListE : Evaluator Scope :=
  fun _ _ => Except.ok (some (Val.l ["a", "b"]))

def evListP : Evaluator Soup :=
  fun _ _ => Except.ok (some (Val.l ["a", "b"]))

def exX : Example :=
  { input_data := "X", answer_a := some "1" }

def exY : Example :=
  { input_data := "Y" }

/- Helper lemmas. -/

lemma examples_evalFields_fieldKeys (ev : Evaluator Scope) (scope : Scope) (day : Nat)
    (locked : Bool) (dflt : DefaultLocators) (loc : Locator) :
    Examples.evalFields ev scope day locked dflt loc fieldKeys =
      Examples.fieldValue ev scope (getPos loc dflt FieldKey.input_data) ::
      Examples.fieldValue ev scope (getPos loc dflt FieldKey.answer_a) ::
      (if locked = true ∨ day = 25 then none
       else Examples.fieldValue ev scope (getPos loc dflt FieldKey.answer_b)) ::
      (if getPos loc dflt FieldKey.extra = none then []
       else [Examples.fieldValue ev scope (getPos loc dflt FieldKey.extra)]) := by
  by_cases h1 : locked = true ∨ day = 25 <;>
    by_cases h2 : getPos loc dflt FieldKey.extra = none <;>
      simp [Examples.evalFields, fieldKeys, h1, h2]

lemma exampleFromVals_none_iff (vals : List (Option String)) :
    exampleFromVals vals = none ↔ vals.getD 0 none = none := by
  unfold exampleFromVals
  cases h : vals.getD 0 none <;> simp

lemma exampleFromVals_input_of_some (vals : List (Option String)) (ex : Example)
    (h : exampleFromVals vals = some ex) : vals.getD 0 none = some ex.input_data := by
  unfold exampleFromVals at h
  cases hv : vals.getD 0 none with
  | none => rw [hv] at h; cases h
  | some i => rw [hv] at h; cases h; rfl

lemma exampleFromVals_answer_b_of_some (vals : List (Option String)) (ex : Example)
    (h : exampleFromVals vals = some ex) : ex.answer_b = vals.getD 2 none := by
  unfold exampleFromVals at h
  cases hv : vals.getD 0 none with
  | none => rw [hv] at h; cases h
  | some i => rw [hv] at h; cases h; rfl

lemma examples_extract_ok (ev : Evaluator Scope) (soup : Soup) (tbl : LocatorTable)
    (ud : Bool) (page : Page) (hp : Page.from_raw soup = Except.ok page) :
    Examples.extract_examples ev soup tbl ud =
      Except.ok ((Examples.locsUsed tbl ud page).filterMap
        (Examples.exampleFromLoc ev (buildScope page) page.day page.article_b.isNone
          tbl.default_locators)) := by
  unfold Examples.extract_examples
  rw [hp]

lemma digitsToNat_foldl_lt (ds : List Char) (h : ∀ c ∈ ds, isDigitChar c = true) :
    ∀ n : Nat, List.foldl (fun acc c => 10 * acc + (c.toNat - 48)) n ds < (n + 1) * 10 ^ ds.length := by
  induction ds with
  | nil => intro n; simp
  | cons c cs ih =>
    intro n
    have hd : c.toNat - 48 ≤ 9 := by
      have hc := h c (List.mem_cons_self c cs)
      unfold isDigitChar at hc
      rw [decide_eq_true_eq] at hc
      omega
    have ih2 := ih (fun x hx => h x (List.mem_cons_of_mem c hx)) (10 * n + (c.toNat - 48))
    have hstep : (10 * n + (c.toNat - 48) + 1) * 10 ^ cs.length ≤ (n + 1) * 10 ^ (cs.length + 1) := by
      have h10 : 10 * n + (c.toNat - 48) + 1 ≤ (n + 1) * 10 := by omega
      calc (10 * n + (c.toNat - 48) + 1) * 10 ^ cs.length
          ≤ ((n + 1) * 10) * 10 ^ cs.length := Nat.mul_le_mul_right _ h10
        _ = (n + 1) * 10 ^ (cs.length + 1) := by rw [pow_succ]; ring
    have hfold : List.foldl (fun acc c => 10 * acc + (c.toNat - 48)) n (c :: cs) =
        List.foldl (fun acc c => 10 * acc + (c.toNat - 48)) (10 * n + (c.toNat - 48)) cs := rfl
    rw [hfold, List.length_cons]
    exact lt_of_lt_of_le ih2 hstep

lemma digitsToNat_lt (ds : List Char) (h : ∀ c ∈ ds, isDigitChar c = true) :
    digitsToNat ds < 10 ^ ds.length := by
  have hlt := digitsToNat_foldl_lt ds h 0
  simpa [digitsToNat] using hlt

lemma parseTitle_le (t : String) (d y : Nat) (h : parseTitle t = some (d, y)) :
    d ≤ 99 ∧ y ≤ 9999 := by
  unfold parseTitle at h
  split at h
  · cases h
  next r1 _ =>
    split at h
    · cases h
    next h2 =>
      split at h
      · cases h
      next r3 _ =>
        split at h
        next h4 =>
          injection h with h
          cases h
          constructor
          · have hlt := digitsToNat_lt (r1.takeWhile isDigitChar)
              (fun c hc => List.mem_takeWhile_imp hc)
            have hlen : (r1.takeWhile isDigitChar).length ≤ 2 := by omega
            have hpow : 10 ^ (r1.takeWhile isDigitChar).length ≤ 10 ^ 2 :=
              Nat.pow_le_pow_right (by omega) hlen
            omega
          · have hlt := digitsToNat_lt (r3.takeWhile isDigitChar)
              (fun c hc => List.mem_takeWhile_imp hc)
            rw [h4.1] at hlt
            omega
        · cases h

lemma ep_evalFields_input (ev : Evaluator Soup) (soup : Soup) (day : Nat) (locked : Bool)
    (dflt : DefaultLocators) (loc : Locator) (ks : List FieldKey) :
    ExampleParser.evalFields ev soup day locked dflt loc (FieldKey.input_data :: ks) =
      match ExampleParser.fieldValue ev soup (getPos loc dflt FieldKey.input_data) with
      | Except.error e => Except.error e
      | Except.ok v =>
        match ExampleParser.evalFields ev soup day locked dflt loc ks with
        | Except.error e => Except.error e
        | Except.ok rest => Except.ok (v :: rest) := rfl

lemma ep_evalFields_answer_a (ev : Evaluator Soup) (soup : Soup) (day : Nat) (locked : Bool)
    (dflt : DefaultLocators) (loc : Locator) (ks : List FieldKey) :
    ExampleParser.evalFields ev soup day locked dflt loc (FieldKey.answer_a :: ks) =
      match ExampleParser.fieldValue ev soup (getPos loc dflt FieldKey.answer_a) with
      | Except.error e => Except.error e
      | Except.ok v =>
        match ExampleParser.evalFields ev soup day locked dflt loc ks with
        | Except.error e => Except.error e
        | Except.ok rest => Except.ok (v :: rest) := rfl

lemma ep_evalFields_answer_b (ev : Evaluator Soup) (soup : Soup) (day : Nat) (locked : Bool)
    (dflt : DefaultLocators) (loc : Locator) (ks : List FieldKey) :
    ExampleParser.evalFields ev soup day locked dflt loc (FieldKey.answer_b :: ks) =
      if locked = true ∨ day = 25 then
        match ExampleParser.evalFields ev soup day locked dflt loc ks with
        | Except.error e => Except.error e
        | Except.ok rest => Except.ok (none :: rest)
      else
        match ExampleParser.fieldValue ev soup (getPos loc dflt FieldKey.answer_b) with
        | Except.error e => Except.error e
        | Except.ok v =>
          match ExampleParser.evalFields ev soup day locked dflt loc ks with
          | Except.error e => Except.error e
          | Except.ok rest => Except.ok (v :: rest) := by
  by_cases hc : locked = true ∨ day = 25 <;> simp [ExampleParser.evalFields, hc]

lemma ep_evalFields_extra (ev : Evaluator Soup) (soup : Soup) (day : Nat) (locked : Bool)
    (dflt : DefaultLocators) (loc : Locator) :
    ExampleParser.evalFields ev soup day locked dflt loc [FieldKey.extra] =
      if getPos loc dflt FieldKey.extra = none then Except.ok []
      else
        match ExampleParser.fieldValue ev soup (getPos loc dflt FieldKey.extra) with
        | Except.error e => Except.error e
        | Except.ok v => Except.ok [v] := by
  by_cases hp : getPos loc dflt FieldKey.extra = none
  · simp [ExampleParser.evalFields, hp]
  · simp [ExampleParser.evalFields, hp]

lemma ep_evalFields_shape (ev : Evaluator Soup) (soup : Soup) (day : Nat) (locked : Bool)
    (dflt : DefaultLocators) (loc : Locator) (vals : List (Option String))
    (h : ExampleParser.evalFields ev soup day locked dflt loc fieldKeys = Except.ok vals) :
    ∃ v0 v1 v2 tail,
      vals = v0 :: v1 :: v2 :: tail ∧
      ExampleParser.fieldValue ev soup (getPos loc dflt FieldKey.input_data) = Except.ok v0 ∧
      ((locked = true ∨ day = 25) → v2 = none) := by
  have hkeys : fieldKeys =
      FieldKey.input_data :: FieldKey.answer_a :: FieldKey.answer_b :: [FieldKey.extra] := rfl
  rw [hkeys, ep_evalFields_input] at h
  cases h0 : ExampleParser.fieldValue ev soup (getPos loc dflt FieldKey.input_data) with
  | error e => simp only [h0] at h; cases h
  | ok v0 =>
    simp only [h0] at h
    rw [ep_evalFields_answer_a] at h
    cases h1 : ExampleParser.fieldValue ev soup (getPos loc dflt FieldKey.answer_a) with
    | error e => simp only [h1] at h; cases h
    | ok v1 =>
      simp only [h1] at h
      rw [ep_evalFields_answer_b] at h
      by_cases hc : locked = true ∨ day = 25
      · rw [if_pos hc] at h
        cases h2 : ExampleParser.evalFields ev soup day locked dflt loc [FieldKey.extra] with
        | error e => simp only [h2] at h; cases h
        | ok rest =>
          simp only [h2] at h
          cases h
          exact ⟨v0, v1, none, rest, rfl, rfl, fun _ => rfl⟩
      · rw [if_neg hc] at h
        cases h2 : ExampleParser.fieldValue ev soup (getPos loc dflt FieldKey.answer_b) with
        | error e => simp only [h2] at h; cases h
        | ok v2 =>
          simp only [h2] at h
          cases h3 : ExampleParser.evalFields ev soup day locked dflt loc [FieldKey.extra] with
          | error e => simp only [h3] at h; cases h
          | ok rest =>
            simp only [h3] at h
            cases h
            exact ⟨v0, v1, v2, rest, rfl, rfl, fun hcc => absurd hcc hc⟩

lemma ep_fieldValue_ok_of_no_list (ev : Evaluator Soup) (soup : Soup)
    (hnl : ∀ e xs, ev e soup ≠ Except.ok (some (Val.l xs))) (pos : Option String) :
    ∃ r, ExampleParser.fieldValue ev soup pos = Except.ok r := by
  cases pos with
  | none => exact ⟨none, rfl⟩
  | some e =>
    unfold ExampleParser.fieldValue tryEval
    cases hev : ev e soup with
    | error u => exact ⟨none, by simp [hev, ExampleParser.processVal]⟩
    | ok v =>
      cases v with
      | none => exact ⟨none, by simp [hev, ExampleParser.processVal]⟩
      | some w =>
        cases w with
        | s x => exact ⟨some (rstripCRLF x), by simp [hev, ExampleParser.processVal]⟩
        | l xs => exact absurd hev (hnl e xs)

lemma ep_evalFields_ok_of_no_list (ev : Evaluator Soup) (soup : Soup) (day : Nat) (locked : Bool)
    (dflt : DefaultLocators) (loc : Locator)
    (hnl : ∀ e xs, ev e soup ≠ Except.ok (some (Val.l xs))) :
    ∀ ks : List FieldKey,
      ∃ vals, ExampleParser.evalFields ev soup day locked dflt loc ks = Except.ok vals := by
  intro ks
  induction ks with
  | nil => exact ⟨[], rfl⟩
  | cons k ks ih =>
    obtain ⟨vals, hv⟩ := ih
    obtain ⟨r, hr⟩ := ep_fieldValue_ok_of_no_list ev soup hnl (getPos loc dflt k)
    by_cases h1 : k = FieldKey.extra ∧ getPos loc dflt k = none
    · obtain ⟨hk, hpos⟩ := h1
      subst hk
      exact ⟨[], by simp [ExampleParser.evalFields, hpos]⟩
    · by_cases h2 : k = FieldKey.answer_b ∧ (locked = true ∨ day = 25)
      · exact ⟨none :: vals, by simp [ExampleParser.evalFields, h1, h2, hv]⟩
      · exact ⟨r :: vals, by simp [ExampleParser.evalFields, h1, h2, hr, hv]⟩

lemma ep_extractLoop_ok_of_no_list (ev : Evaluator Soup) (soup : Soup) (day : Nat)
    (locked : Bool) (dflt : DefaultLocators)
    (hnl : ∀ e xs, ev e soup ≠ Except.ok (some (Val.l xs))) :
    ∀ locs : List Locator,
      ∃ res, ExampleParser.extractLoop ev soup day locked dflt locs = Except.ok res := by
  intro locs
  induction locs with
  | nil => exact ⟨[], rfl⟩
  | cons loc ls ih =>
    obtain ⟨res, hres⟩ := ih
    obtain ⟨vals, hvals⟩ := ep_evalFields_ok_of_no_list ev soup day locked dflt loc hnl fieldKeys
    cases hone : exampleFromVals vals with
    | none => exact ⟨res, by simp [ExampleParser.extractLoop, hvals, hres, hone]⟩
    | some ex => exact ⟨ex :: res, by simp [ExampleParser.extractLoop, hvals, hres, hone]⟩

lemma ep_extractLoop_mem (ev : Evaluator Soup) (soup : Soup) (day : Nat) (locked : Bool)
    (dflt : DefaultLocators) :
    ∀ (locs : List Locator) (res : List Example) (ex : Example),
      ExampleParser.extractLoop ev soup day locked dflt locs = Except.ok res → ex ∈ res →
      ∃ loc vals, loc ∈ locs ∧
        ExampleParser.evalFields ev soup day locked dflt loc fieldKeys = Except.ok vals ∧
        exampleFromVals vals = some ex := by
  intro locs
  induction locs with
  | nil =>
    intro res ex h hex
    unfold ExampleParser.extractLoop at h
    cases h
    cases hex
  | cons loc ls ih =>
    intro res ex h hex
    unfold ExampleParser.extractLoop at h
    cases hvf : ExampleParser.evalFields ev soup day locked dflt loc fieldKeys with
    | error e => simp only [hvf] at h; cases h
    | ok vals =>
      simp only [hvf] at h
      cases hrest : ExampleParser.extractLoop ev soup day locked dflt ls with
      | error e => simp only [hrest] at h; cases h
      | ok rest =>
        simp only [hrest] at h
        cases hone : exampleFromVals vals with
        | none =>
          simp only [hone] at h
          cases h
          obtain ⟨loc2, vals2, hmem, hv2, he2⟩ := ih res ex hrest hex
          exact ⟨loc2, vals2, List.mem_cons_of_mem loc hmem, hv2, he2⟩
        | some ex0 =>
          simp only [hone] at h
          cases h
          cases hex with
          | head =>
            exact ⟨loc, vals, List.mem_cons_self loc ls, hvf, hone⟩
          | tail _ hmem =>
            obtain ⟨loc2, vals2, hmem2, hv2, he2⟩ := ih rest ex hrest hmem
            exact ⟨loc2, vals2, List.mem_cons_of_mem loc hmem2, hv2, he2⟩

lemma zipLongest_eq_zip_pad {α : Type} (fill : α) :
    ∀ xs ys : List α,
      zipLongest fill xs ys =
        (xs ++ List.replicate (ys.length - xs.length) fill).zip
          (ys ++ List.replicate (xs.length - ys.length) fill)
  | [], [] => by simp [zipLongest]
  | x :: xs, [] => by
    have ih := zipLongest_eq_zip_pad fill xs []
    simp [zipLongest, ih, List.replicate_succ]
  | [], y :: ys => by
    have ih := zipLongest_eq_zip_pad fill [] ys
    simp [zipLongest, ih, List.replicate_succ]
  | x :: xs, y :: ys => by
    have ih := zipLongest_eq_zip_pad fill xs ys
    simp [zipLongest, ih, Nat.succ_sub_succ]

/- Claim theorems. -/

/-- Claim C1: for every successfully parsed page and every locator table, if the
page's day equals 25 or part b is locked (section B absent), then every Example
returned by extract_examples (in either implementation) has an absent answer_b,
for every evaluator whatsoever - so the answer_b field is Absent even when the
configured expression would have succeeded, and no expression is consulted. -/
theorem claim_C1_answer_b_absent_when_day25_or_locked
    (evE : Evaluator Scope) (evP : Evaluator Soup) (soup : Soup) (tbl : LocatorTable)
    (ud : Bool) (page : Page)
    (hp : Page.from_raw soup = Except.ok page)
    (hcond : page.day = 25 ∨ page.article_b = none) :
    (∀ res, Examples.extract_examples evE soup tbl ud = Except.ok res →
        ∀ ex ∈ res, ex.answer_b = none) ∧
    (∀ res, ExampleParser.extract_examples evP soup tbl = Except.ok res →
        ∀ ex ∈ res, ex.answer_b = none) := by
  have hc : page.article_b.isNone = true ∨ page.day = 25 := by
    rcases hcond with h | h
    · exact Or.inr h
    · exact Or.inl (by rw [h]; rfl)
  constructor
  · intro res hres ex hex
    rw [examples_extract_ok evE soup tbl ud page hp] at hres
    injection hres with hres
    subst hres
    rcases List.mem_filterMap.mp hex with ⟨loc, _, hloc⟩
    unfold Examples.exampleFromLoc at hloc
    have hb := exampleFromVals_answer_b_of_some _ _ hloc
    rw [examples_evalFields_fieldKeys, if_pos hc] at hb
    simpa using hb
  · intro res hres ex hex
    unfold ExampleParser.extract_examples at hres
    simp only [hp] at hres
    obtain ⟨loc, vals, _, hvals, hsome⟩ :=
      ep_extractLoop_mem evP soup page.day page.article_b.isNone tbl.default_locators
        _ res ex hres hex
    obtain ⟨v0, v1, v2, tail, hvals_eq, _, hv2⟩ := ep_evalFields_shape evP soup _ _ _ _ _ hvals
    have hb := exampleFromVals_answer_b_of_some _ _ hsome
    rw [hvals_eq, hv2 hc] at hb
    simpa using hb

theorem claim_C1_witness :
    ({ input_data := "B", answer_a := some "B" } : Example).answer_b = none :=
  (claim_C1_answer_b_absent_when_day25_or_locked evConst evConstP soup25 tbl0
    false page25 rfl (Or.inl rfl)).1
    [{ input_data := "B", answer_a := some "B" }] rfl
    { input_data := "B", answer_a := some "B" } (List.mem_cons_self _ _)

/-- Claim C3: a locator entry contributes an Example to the extraction result
if and only if its input_data field evaluated to a non-absent value.  In
examples.py the whole result is the filterMap of the per-entry processing, an
entry processes to none exactly when its input_data value came out absent, and
a produced Example carries that value as its input_data; the analogous
per-entry facts hold for example_parser.py's field loop. -/
theorem claim_C3_entry_iff_input_data_present
    (evE : Evaluator Scope) (evP : Evaluator Soup) (soup : Soup) (tbl : LocatorTable)
    (ud : Bool) (page : Page)
    (hp : Page.from_raw soup = Except.ok page) :
    (Examples.extract_examples evE soup tbl ud =
      Except.ok ((Examples.locsUsed tbl ud page).filterMap
        (Examples.exampleFromLoc evE (buildScope page) page.day page.article_b.isNone
          tbl.default_locators))) ∧
    (∀ loc,
      (Examples.exampleFromLoc evE (buildScope page) page.day page.article_b.isNone
          tbl.default_locators loc = none ↔
        Examples.fieldValue evE (buildScope page)
          (getPos loc tbl.default_locators FieldKey.input_data) = none) ∧
      (∀ ex, Examples.exampleFromLoc evE (buildScope page) page.day page.article_b.isNone
          tbl.default_locators loc = some ex →
        Examples.fieldValue evE (buildScope page)
          (getPos loc tbl.default_locators FieldKey.input_data) = some ex.input_data)) ∧
    (∀ loc vals,
      ExampleParser.evalFields evP soup page.day page.article_b.isNone tbl.default_locators
          loc fieldKeys = Except.ok vals →
      (exampleFromVals vals = none ↔ vals.getD 0 none = none) ∧
      ExampleParser.fieldValue evP soup (getPos loc tbl.default_locators FieldKey.input_data) =
        Except.ok (vals.getD 0 none)) := by
  refine ⟨examples_extract_ok evE soup tbl ud page hp, fun loc => ⟨?_, ?_⟩,
    fun loc vals hvals => ⟨exampleFromVals_none_iff vals, ?_⟩⟩
  · unfold Examples.exampleFromLoc
    rw [exampleFromVals_none_iff, examples_evalFields_fieldKeys]
    simp
  · intro ex hex
    unfold Examples.exampleFromLoc at hex
    have hin := exampleFromVals_input_of_some _ _ hex
    rw [examples_evalFields_fieldKeys] at hin
    simpa using hin
  · obtain ⟨v0, v1, v2, tail, heq, hfv, _⟩ := ep_evalFields_shape evP soup _ _ _ _ _ hvals
    rw [heq]
    simpa using hfv

theorem claim_C3_witness :
    Examples.extract_examples evConst soup1 tbl0 false =
      Except.ok ((Examples.locsUsed tbl0 false page1).filterMap
        (Examples.exampleFromLoc evConst (buildScope page1) page1.day page1.article_b.isNone
          tbl0.default_locators)) :=
  (claim_C3_entry_iff_input_data_present evConst evConstP soup1 tbl0 false page1 rfl).1

/-- Claim C5: given a document whose title parses, Page.from_raw fails with the
no-sections ExampleParserError on zero articles, constructs a Page with section
B absent on exactly one article, constructs a Page with both sections on
exactly two articles, and fails with the too-many-sections ExampleParserError
on more than two. -/
theorem claim_C5_section_count (soup : Soup) (t : String) (d y : Nat)
    (ht : soup.title = some t) (hm : parseTitle t = some (d, y)) :
    (soup.articles = [] →
      Page.from_raw soup =
        Except.error (PyError.exampleParserError ParseErrorKind.noSections)) ∧
    (∀ a, soup.articles = [a] →
      Page.from_raw soup =
        Except.ok { year := y, day := d, article_a := a, article_b := none }) ∧
    (∀ a b, soup.articles = [a, b] →
      Page.from_raw soup =
        Except.ok { year := y, day := d, article_a := a, article_b := some b }) ∧
    (2 < soup.articles.length →
      Page.from_raw soup =
        Except.error (PyError.exampleParserError ParseErrorKind.tooManySections)) := by
  refine ⟨?_, ?_, ?_, ?_⟩
  · intro harts
    simp [Page.from_raw, ht, hm, harts]
  · intro a harts
    simp [Page.from_raw, ht, hm, harts]
  · intro a b harts
    simp [Page.from_raw, ht, hm, harts]
  · intro hlen
    obtain ⟨a, b, c, rest, harts⟩ : ∃ a b c rest, soup.articles = a :: b :: c :: rest := by
      cases hx : soup.articles with
      | nil => rw [hx] at hlen; simp at hlen
      | cons a l1 =>
        cases l1 with
        | nil => rw [hx] at hlen; simp at hlen
        | cons b l2 =>
          cases l2 with
          | nil => rw [hx] at hlen; simp at hlen
          | cons c rest => exact ⟨a, b, c, rest, rfl⟩
    simp [Page.from_raw, ht, hm, harts]

theorem claim_C5_witness :
    Page.from_raw soup1 =
      Except.ok { year := 2022, day := 5, article_a := artA, article_b := none } :=
  (claim_C5_section_count soup1 "Day 5 - Advent of Code 2022" 5 2022 rfl rfl).2.1 artA rfl

/-- Claim C2 counterexample: a non-parser failure propagates out of
example_parser.py's extract_examples.  With a document that parses fine and a
locator expression that evaluates to a sequence of strings, the value reaches
`val.rstrip` outside the try block (that file has no join step), so an
AttributeError - not a Document Parser failure - escapes to the caller. -/
theorem claim_C2_counterexample :
    Page.from_raw soup1 = Except.ok page1 ∧
    ExampleParser.extract_examples evListP soup1 tbl0 =
      Except.error (PyError.attributeError "rstrip") :=
  ⟨rfl, rfl⟩

/-- Claim C2 (amended): for examples.py's extract_examples, extraction returns
an error exactly when the Document Parser (Page.from_raw) fails, and it is that
parse error, for every evaluator - every expression-evaluation failure is
absorbed into an absent field.  For example_parser.py's extract_examples the
same holds provided no expression evaluates to a sequence of strings; a
sequence-valued result raises an uncaught AttributeError from rstrip. -/
theorem claim_C2_amended_error_propagation (evE : Evaluator Scope) (evP : Evaluator Soup)
    (soup : Soup) (tbl : LocatorTable) (ud : Bool)
    (hnl : ∀ e xs, evP e soup ≠ Except.ok (some (Val.l xs))) :
    (∀ err, Examples.extract_examples evE soup tbl ud = Except.error err ↔
      Page.from_raw soup = Except.error err) ∧
    (∀ err, ExampleParser.extract_examples evP soup tbl = Except.error err ↔
      Page.from_raw soup = Except.error err) := by
  constructor
  · intro err
    unfold Examples.extract_examples
    cases hp : Page.from_raw soup with
    | error e => simp
    | ok page => simp
  · intro err
    unfold ExampleParser.extract_examples
    cases hp : Page.from_raw soup with
    | error e => simp
    | ok page =>
      obtain ⟨res, hres⟩ := ep_extractLoop_ok_of_no_list evP soup page.day
        page.article_b.isNone tbl.default_locators hnl
        (locsFor tbl (puzzleKey page.year page.day))
      simp [hres]

theorem claim_C2_witness :
    Examples.extract_examples evConst soupNoTitle tbl0 false =
      Except.error (PyError.attributeError "text") := by
  have hnl : ∀ e xs, evConstP e soupNoTitle ≠ Except.ok (some (Val.l xs)) := by
    intro e xs h
    simp [evConstP] at h
  exact ((claim_C2_amended_error_propagation evConst evConstP soupNoTitle tbl0 false hnl).1
    (PyError.attributeError "text")).mpr rfl

/-- Claim C4: in the scoring harnesses, for an aligned (scraped, reference)
pair the answer-b verdict is `scraped.answer_b is None` when part b is locked -
independent of the reference Example - and plain equality otherwise; and both
per-day scoring cores apply exactly this per-pair verdict to every aligned
pair. -/
theorem claim_C4_answer_b_verdict (s c c2 : Example) (year day : Nat) (locked : Bool)
    (ss cs : List Example) :
    ((scorePair true s c).answerBMatch = s.answer_b.isNone) ∧
    ((scorePair true s c).answerBMatch = (scorePair true s c2).answerBMatch) ∧
    ((scorePair false s c).answerBMatch = (s.answer_b == c.answer_b)) ∧
    ((Examples.scoreDay year day locked ss cs).2 =
      (zipLongest missingExample ss cs).map fun sc => scorePair locked sc.1 sc.2) ∧
    ((ExampleParser.scoreDay year day locked ss cs).2 =
      (zipLongest missingExample ss cs).map fun sc => scorePair locked sc.1 sc.2) :=
  ⟨rfl, rfl, rfl, rfl, rfl⟩

/-- Claim C6 counterexample: the two extract_examples functions disagree on
sequence-valued expressions.  On the same parseable document and locator table,
with every expression evaluating to the list of strings a, b, examples.py joins
with a newline and stores the result, while example_parser.py - whose cited
lines have no join step - aborts with an uncaught AttributeError instead of
joining and storing. -/
theorem claim_C6_counterexample :
    Examples.extract_examples evListE soup1 tbl0 false =
      Except.ok [{ input_data := "a\nb", answer_a := some "a\nb" }] ∧
    ExampleParser.extract_examples evListP soup1 tbl0 =
      Except.error (PyError.attributeError "rstrip") :=
  ⟨rfl, rfl⟩

/-- Claim C6 (amended): in examples.py's extract_examples, a field expression
that evaluates to a sequence of strings is joined with newline separators into
a single string before the trailing line-terminator strip and storage; in
example_parser.py's extract_examples there is no join and such a value raises
an uncaught AttributeError from rstrip. -/
theorem claim_C6_amended_join_sequences (ev : Evaluator Scope) (scope : Scope) (e : String)
    (xs : List String) (h : ev e scope = Except.ok (some (Val.l xs))) :
    (Examples.fieldValue ev scope (some e) =
      some (rstripCRLF (String.intercalate "\n" xs))) ∧
    ExampleParser.processVal (some (Val.l xs)) =
      Except.error (PyError.attributeError "rstrip") := by
  constructor
  · simp [Examples.fieldValue, tryEval, h, Examples.processVal]
  · rfl

theorem claim_C6_witness :
    Examples.fieldValue evListE (buildScope page1) (some "a_pre[0]") =
      some (rstripCRLF (String.intercalate "\n" ["a", "b"])) :=
  (claim_C6_amended_join_sequences evListE (buildScope page1) "a_pre[0]" ["a", "b"] rfl).1

/-- Claim C7 counterexample: in example_parser.py's scoring harness the
length-mismatch warning is guarded by a strict greater-than, so with 1 scraped
example against 2 reference examples - lengths that differ - no diagnostic at
all is emitted. -/
theorem claim_C7_counterexample :
    [exX].length ≠ [exX, exY].length ∧
    (ExampleParser.scoreDay 2022 5 true [exX] [exX, exY]).1 = [] := by
  constructor
  · decide
  · rfl

/-- Claim C7 (amended): examples.py's harness emits the length-mismatch
diagnostic whenever the scraped and reference lengths differ, while
example_parser.py's emits it only when more was scraped than expected; in both,
alignment pads the shorter list with the sentinel empty Example (input_data the
empty string, all other fields absent) and scores every aligned position,
never raising an error. -/
theorem claim_C7_amended_length_mismatch (year day : Nat) (locked : Bool)
    (ss cs : List Example) :
    ((Examples.scoreDay year day locked ss cs).1 =
      if ss.length = cs.length then []
      else [lengthMismatchMsg year day ss.length cs.length]) ∧
    ((ExampleParser.scoreDay year day locked ss cs).1 =
      if cs.length < ss.length then [lengthMismatchMsg year day ss.length cs.length]
      else []) ∧
    (missingExample =
      { input_data := "", answer_a := none, answer_b := none, extra := none }) ∧
    ((Examples.scoreDay year day locked ss cs).2 =
      ((ss ++ List.replicate (cs.length - ss.length) missingExample).zip
        (cs ++ List.replicate (ss.length - cs.length) missingExample)).map
        fun sc => scorePair locked sc.1 sc.2) ∧
    ((ExampleParser.scoreDay year day locked ss cs).2 =
      (Examples.scoreDay year day locked ss cs).2) := by
  refine ⟨?_, rfl, rfl, ?_, rfl⟩
  · by_cases h : ss.length = cs.length <;> simp [Examples.scoreDay, h]
  · simp [Examples.scoreDay, zipLongest_eq_zip_pad]

/-- Claim C8: on a page whose section B is absent (part b locked), every
whitelisted b-view accessor and the cb accessor yield a failed AttributeError
lookup without computing any B-section view; the extraction scope is built from
the a-views only; examples.py's extraction still completes normally for every
evaluator over that page; and an evaluator failure on an expression is absorbed
into an absent field value. -/
theorem claim_C8_locked_b_views_absorbed (page : Page) (hlock : page.article_b = none) :
    (∀ tag : Tag, Page.getattr page PagePart.b tag =
      Except.error (PyError.attributeError ("b_" ++ tag.name))) ∧
    Page.cb page = Except.error (PyError.attributeError "cb") ∧
    ((buildScope page).views =
      Tag.all.map fun tag => ("a_" ++ tag.name, page.article_a.view tag)) ∧
    (∀ (ev : Evaluator Scope) (soup : Soup) (tbl : LocatorTable) (ud : Bool),
      Page.from_raw soup = Except.ok page →
      Examples.extract_examples ev soup tbl ud =
        Except.ok ((Examples.locsUsed tbl ud page).filterMap
          (Examples.exampleFromLoc ev (buildScope page) page.day page.article_b.isNone
            tbl.default_locators))) ∧
    (∀ (ev : Evaluator Scope) (scope : Scope) (e : String) (u : Unit),
      ev e scope = Except.error u → Examples.fieldValue ev scope (some e) = none) := by
  refine ⟨?_, ?_, ?_, ?_, ?_⟩
  · intro tag
    unfold Page.getattr
    rw [hlock]
  · unfold Page.cb
    rw [hlock]
  · unfold buildScope
    rw [hlock]
    rfl
  · intro ev soup tbl ud hp
    exact examples_extract_ok ev soup tbl ud page hp
  · intro ev scope e u hev
    simp [Examples.fieldValue, tryEval, hev, Examples.processVal]

theorem claim_C8_witness :
    Page.cb page1 = Except.error (PyError.attributeError "cb") :=
  (claim_C8_locked_b_views_absorbed page1 rfl).2.1

/-- Claim C9 counterexample: Page.from_raw enforces only the title pattern, not
the stated ranges.  The title of soup99 matches the two-field pattern with a
two-digit day 99 and four-digit year 0001, and from_raw happily constructs a
Page with year 1 (below 2015) and day 99 (above 25). -/
theorem claim_C9_counterexample :
    Page.from_raw soup99 = Except.ok page99 ∧ page99.year < 2015 ∧ 25 < page99.day :=
  ⟨rfl, by decide, by decide⟩

/-- Claim C9 (amended): every Page constructed by Page.from_raw has a day of at
most 99 and a year of at most 9999 - the only bounds the 1-2 digit and 4 digit
title pattern enforces; the ranges year at least 2015 and day between 1 and 25
are not checked.  A document without a title is a fatal AttributeError, and a
title that does not match the pattern is a fatal title-mismatch
ExampleParserError. -/
theorem claim_C9_amended_title_bounds (soup : Soup) :
    (∀ page, Page.from_raw soup = Except.ok page → page.day ≤ 99 ∧ page.year ≤ 9999) ∧
    (soup.title = none →
      Page.from_raw soup = Except.error (PyError.attributeError "text")) ∧
    (∀ t, soup.title = some t → parseTitle t = none →
      Page.from_raw soup =
        Except.error (PyError.exampleParserError ParseErrorKind.titleMismatch)) := by
  refine ⟨?_, ?_, ?_⟩
  · intro page hp
    unfold Page.from_raw at hp
    cases ht : soup.title with
    | none => simp only [ht] at hp; cases hp
    | some t =>
      simp only [ht] at hp
      cases hm : parseTitle t with
      | none => simp only [hm] at hp; cases hp
      | some dy =>
        obtain ⟨d, y⟩ := dy
        simp only [hm] at hp
        have hb := parseTitle_le t d y hm
        cases harts : soup.articles with
        | nil => simp only [harts] at hp; cases hp
        | cons a l1 =>
          cases l1 with
          | nil =>
            simp only [harts] at hp
            cases hp
            exact ⟨hb.1, hb.2⟩
          | cons b l2 =>
            cases l2 with
            | nil =>
              simp only [harts] at hp
              cases hp
              exact ⟨hb.1, hb.2⟩
            | cons c rest =>
              simp only [harts] at hp
              cases hp
  · intro ht
    simp [Page.from_raw, ht]
  · intro t ht hm
    simp [Page.from_raw, ht, hm]

theorem claim_C9_witness : page99.day ≤ 99 ∧ page99.year ≤ 9999 :=
  (claim_C9_amended_title_bounds soup99).1 page99 rfl

/-- Claim C10: calling examples.py's extract_examples with
use_default_locators set selects the single-element list holding only the
default locator, ignoring any per-puzzle entries, so the result equals
extraction against a table with no per-puzzle entries at all. -/
theorem claim_C10_use_default_locators (ev : Evaluator Scope) (soup : Soup)
    (tbl : LocatorTable) :
    (Examples.extract_examples ev soup tbl true =
      Examples.extract_examples ev soup
        { default_locators := tbl.default_locators, per_puzzle := [] } false) ∧
    (∀ page, Examples.locsUsed tbl true page = [tbl.default_locators.asLoc]) := by
  constructor
  · unfold Examples.extract_examples
    cases hp : Page.from_raw soup with
    | error e => rfl
    | ok page => rfl
  · intro page
    rfl
